import Mathlib

/-!
Verification of the x402 cross-chain bridge facilitator against its
natural-language specification.

The definitions below are a shallow embedding of the repository's code:

* `getSwapStatus` / `getSwapStatusPkg` embed `RelayService.getSwapStatus`
  (facilitator `relay.ts`, both shipped variants);
* `pollFrom` embeds the `while (relayStatus === 'PENDING' && attempts < maxAttempts)`
  polling loops of the `/verify` and `/settle` handlers;
* `PaymentSettlement.settle` and `PaymentSettlement.registerRequirement` embed
  the Solidity `PaymentSettlement` contract;
* `verify` embeds the x402-compliant `POST /verify` handler;
* `settleV2` embeds the x402-compliant `POST /settle` handler (the one with the
  token-collection / quote / approve / bridge pipeline);
* `settleV1` embeds the ledger-based `POST /settle` handler (the one with the
  `alreadySettled` short-circuit calling the `SettlementService`).

External effects (RPC calls, HTTP fetches, EIP-712 signature recovery) are
modelled as oracle fields of environment records; every on-chain or
bridge-provider action executed by a handler is recorded in an explicit
`Step` trace so that "no RPC call is issued" claims are statable.
-/

/-- Tri-state swap status (`SwapStatus` in `relay.ts`). -/
inductive SwapStatus
  | PENDING
  | COMPLETED
  | FAILED
deriving DecidableEq, Repr

/-- String form of a status, as interpolated into handler messages. -/
def SwapStatus.str : SwapStatus → String
  | .PENDING => "PENDING"
  | .COMPLETED => "COMPLETED"
  | .FAILED => "FAILED"

/-- Outcome of the HTTP fetch inside `getSwapStatus`: either a transport/HTTP
error (non-ok response or thrown exception), or a parsed JSON body whose
`status` field is the given optional string (`none` models an absent field). -/
inductive StatusFetch
  | httpError
  | ok (status : Option String)
deriving DecidableEq

/-- `RelayService.getSwapStatus` of the unnamed facilitator source
(`if (status === 'success') ... else if (status === 'failure' || status === 'refund') ... else PENDING`,
with `return 'PENDING'` on any non-ok response or thrown error). -/
def getSwapStatus : StatusFetch → SwapStatus
  | .httpError => .PENDING
  | .ok st =>
    if st = some "success" then .COMPLETED
    else if st = some "failure" ∨ st = some "refund" then .FAILED
    else .PENDING

/-- `RelayService.getSwapStatus` of `packages/facilitator/src/relay.ts`:
a `switch` over the provider status with cases success / failure / refund /
waiting / pending and a default of PENDING, again PENDING on any error. -/
def getSwapStatusPkg : StatusFetch → SwapStatus
  | .httpError => .PENDING
  | .ok st =>
    if st = some "success" then .COMPLETED
    else if st = some "failure" then .FAILED
    else if st = some "refund" then .FAILED
    else if st = some "waiting" then .PENDING
    else if st = some "pending" then .PENDING
    else .PENDING

/-- The polling loop of the `/verify` and `/settle` handlers.
`s n` is the result of the `n`-th `relay.getSwapStatus` call of the request
(`s 0` is the call made before the loop).  `fuel` is the remaining attempt
budget (`maxAttempts - attempts`), `a` the attempts made so far, `cur` the
most recently observed status.  Returns the final status together with the
final value of the `attempts` counter.  Source:

    let relayStatus = await relay.getSwapStatus(key);
    let attempts = 0;
    while (relayStatus === 'PENDING' && attempts < maxAttempts) {
      await sleep(1000);
      relayStatus = await relay.getSwapStatus(key);
      attempts++;
    } -/
def pollFrom (s : Nat → SwapStatus) : Nat → Nat → SwapStatus → SwapStatus × Nat
  | 0, a, cur => (cur, a)
  | fuel + 1, a, cur =>
    if cur = .PENDING then pollFrom s fuel (a + 1) (s (a + 1)) else (cur, a)

/-- Requirement record of the `PaymentSettlement` contract. -/
structure Requirement where
  token : String
  minAmount : Nat
  payee : String
deriving DecidableEq, Repr

/-- Storage of the `PaymentSettlement` contract.  Solidity mappings default to
the zero value, which is reflected by total functions. -/
structure ContractState where
  settler : String
  requirements : String → Requirement
  isSettled : String → Bool

/-- Custom errors of the `PaymentSettlement` contract. -/
inductive ContractError
  | OnlySettler
  | AlreadySettled
  | TokenMismatch
  | InsufficientAmount
deriving DecidableEq, Repr

/-- `PaymentSettlement.settle`: reverts `OnlySettler` for a non-settler caller,
`AlreadySettled` when `isSettled[paymentId]`, `TokenMismatch` or
`InsufficientAmount` against the registered requirement, and otherwise flips
`isSettled[paymentId]` to `true`.  A revert (`Except.error`) leaves the
caller's state unchanged. -/
def PaymentSettlement.settle (st : ContractState) (sender paymentId payer : String)
    (amount : Nat) (token : String) : Except ContractError ContractState :=
  if sender ≠ st.settler then .error .OnlySettler
  else if st.isSettled paymentId then .error .AlreadySettled
  else
    let req := st.requirements paymentId
    if token ≠ req.token then .error .TokenMismatch
    else if amount < req.minAmount then .error .InsufficientAmount
    else .ok { st with
      isSettled := fun x => if x = paymentId then true else st.isSettled x }

/-- `PaymentSettlement.registerRequirement` (onlySettler, overwrites the
requirement record for the id). -/
def PaymentSettlement.registerRequirement (st : ContractState)
    (sender paymentId token : String) (minAmount : Nat) (payee : String) :
    Except ContractError ContractState :=
  if sender ≠ st.settler then .error .OnlySettler
  else .ok { st with
    requirements := fun x =>
      if x = paymentId then { token := token, minAmount := minAmount, payee := payee }
      else st.requirements x }

/-- ERC-2612 permit payload (`PermitPayload` in the facilitator).  The
`uint256`-valued decimal strings of the source are represented as `Nat`
(the handlers compare them only through `BigInt`). -/
structure PermitPayload where
  owner : String
  spender : String
  value : Nat
  nonce : Nat
  deadline : Nat
deriving DecidableEq, Repr

/-- EIP-3009 authorization payload (`AuthorizationPayload`). -/
structure AuthorizationPayload where
  fromAddr : String
  toAddr : String
  value : Nat
  validAfter : Nat
  validBefore : Nat
  nonce : String
deriving DecidableEq, Repr

/-- Native-token payment proof (`NativePayment`). -/
structure NativePayment where
  fromAddr : String
  txHash : String
  amount : String
  chainId : Nat
  requestId : Option String
deriving DecidableEq, Repr

/-- The inner `payload` object of an x402 payment payload; any subset of the
three variants may be populated (the code does not enforce exactly one). -/
structure PayloadBody where
  permit : Option PermitPayload
  authorization : Option AuthorizationPayload
  nativePayment : Option NativePayment
  signature : Option String
deriving DecidableEq, Repr

/-- `X402PaymentPayload` of the facilitator. -/
structure X402PaymentPayload where
  x402Version : Nat
  scheme : String
  network : String
  payload : PayloadBody
deriving DecidableEq, Repr

/-- Payment requirements, restricted to the fields the handlers read.  Decimal
amount strings are `Nat`; optional fields that the code tests for JS
truthiness are `Option` (with `none` for absent or empty).  The EIP-712
`extra` metadata only feeds the signature-recovery call, which is an oracle
here, so it is folded into that oracle. -/
structure PaymentRequirements where
  payTo : String
  maxAmountRequired : Nat
  srcAmountRequired : Option Nat
  asset : String
  srcTokenAddress : Option String
  srcNetwork : Option String
  network : String
deriving DecidableEq, Repr

/-- JS truthiness filter on an optional string: an absent or empty string is
falsy (`undefined`, `''`). -/
def jsStr : Option String → Option String
  | some s => if s = "" then none else some s
  | none => none

/-- `String.prototype.toLowerCase()` on the ASCII address/token strings the
handlers compare (character-wise lowering). -/
def lowerAscii (s : String) : String := ⟨s.data.map Char.toLower⟩

/-- `const payer = permit?.owner || authorization?.from || nativePayment?.from`
followed by the `if (!payer)` guard: first truthy value, `none` if all falsy. -/
def payerOf (b : PayloadBody) : Option String :=
  (jsStr (b.permit.map PermitPayload.owner)).orElse fun _ =>
    (jsStr (b.authorization.map AuthorizationPayload.fromAddr)).orElse fun _ =>
      jsStr (b.nativePayment.map NativePayment.fromAddr)

/-- `CHAIN_IDS` lookup table from `constants.ts`. -/
def CHAIN_IDS (s : String) : Option Nat :=
  if s = "mainnet" then some 1
  else if s = "base" then some 8453
  else if s = "base-sepolia" then some 84532
  else if s = "arbitrum" then some 42161
  else if s = "optimism" then some 10
  else if s = "polygon" then some 137
  else if s = "bsc" then some 56
  else if s = "avalanche" then some 43114
  else if s = "zksync" then some 324
  else if s = "linea" then some 59144
  else none

/-- `CHAIN_IDS[req.srcNetwork] || CHAIN_IDS[payload.network] || 8453`. -/
def srcChainIdOf (req : PaymentRequirements) (networkTag : String) : Nat :=
  (((req.srcNetwork.bind CHAIN_IDS).orElse fun _ => CHAIN_IDS networkTag).getD 8453)

/-- `CHAIN_IDS[req.network] || 8453`. -/
def destChainIdOf (req : PaymentRequirements) : Nat :=
  (CHAIN_IDS req.network).getD 8453

/-- `req.srcTokenAddress || req.asset`. -/
def srcTokenOf (req : PaymentRequirements) : String :=
  (jsStr req.srcTokenAddress).getD req.asset

/-- `BigInt(req.srcAmountRequired || req.maxAmountRequired)`: the effective
minimum amount a signed value is compared against. -/
def minAmountOf (req : PaymentRequirements) : Nat :=
  req.srcAmountRequired.getD req.maxAmountRequired

/-- Result shape of the `/verify` endpoint. -/
structure VerifyResult where
  isValid : Bool
  invalidReason : Option String
  payer : Option String
deriving DecidableEq, Repr

/-- Environment of one `/verify` request: the clock, the facilitator wallet
address, the sequence of relay status-query results, and the EIP-712
signature-recovery oracles (`ethers.verifyTypedData`; `none` models a thrown
exception, which the handler turns into an invalid signature). -/
structure VerifyEnv where
  now : Nat
  facilitatorAddr : String
  statusAt : Nat → SwapStatus
  recoverAuth : PaymentRequirements → AuthorizationPayload → String → Option String
  recoverPermit : PaymentRequirements → PermitPayload → String → Option String

/-- Native branch of `/verify`: poll relay up to 60 one-second attempts on
`requestId || txHash`; COMPLETED is valid, FAILED invalid, and a still-PENDING
status after the budget is invalid with the last-known status in the reason. -/
def verifyNative (env : VerifyEnv) (np : NativePayment) (payer : String) : VerifyResult :=
  match (pollFrom env.statusAt 60 0 (env.statusAt 0)).1 with
  | .COMPLETED => ⟨true, none, some payer⟩
  | .FAILED => ⟨false, some "Native payment failed on Relay", some payer⟩
  | .PENDING =>
    ⟨false, some ("Native payment pending. Status: " ++ SwapStatus.str .PENDING), some payer⟩

/-- EIP-3009 authorization branch of `/verify`: deadline check
(`validBefore < now + 6`), recipient check (`to` must equal `payTo` or the
facilitator address, case-insensitively), amount check
(`value < srcAmountRequired || maxAmountRequired`), then EIP-712 recovery
compared case-insensitively with the payer. -/
def verifyAuthBranch (env : VerifyEnv) (req : PaymentRequirements)
    (auth : AuthorizationPayload) (signature payer : String) : VerifyResult :=
  if auth.validBefore < env.now + 6 then
    ⟨false, some "Authorization deadline expired or too soon", some payer⟩
  else if lowerAscii auth.toAddr ≠ lowerAscii req.payTo ∧
      lowerAscii auth.toAddr ≠ lowerAscii env.facilitatorAddr then
    ⟨false, some "Authorization recipient mismatch", some payer⟩
  else if auth.value < minAmountOf req then
    ⟨false, some "Authorization amount insufficient", some payer⟩
  else
    match env.recoverAuth req auth signature with
    | some recovered =>
      if lowerAscii recovered = lowerAscii payer then ⟨true, none, some payer⟩
      else ⟨false, some "Invalid signature", some payer⟩
    | none => ⟨false, some "Invalid signature", some payer⟩

/-- ERC-2612 permit branch of `/verify`, structurally identical with
`deadline` / `spender` in place of `validBefore` / `to`. -/
def verifyPermitBranch (env : VerifyEnv) (req : PaymentRequirements)
    (pp : PermitPayload) (signature payer : String) : VerifyResult :=
  if pp.deadline < env.now + 6 then
    ⟨false, some "Permit deadline expired or too soon", some payer⟩
  else if lowerAscii pp.spender ≠ lowerAscii req.payTo ∧
      lowerAscii pp.spender ≠ lowerAscii env.facilitatorAddr then
    ⟨false, some "Permit spender mismatch", some payer⟩
  else if pp.value < minAmountOf req then
    ⟨false, some "Permit amount insufficient", some payer⟩
  else
    match env.recoverPermit req pp signature with
    | some recovered =>
      if lowerAscii recovered = lowerAscii payer then ⟨true, none, some payer⟩
      else ⟨false, some "Invalid signature", some payer⟩
    | none => ⟨false, some "Invalid signature", some payer⟩

/-- The x402-compliant `POST /verify` handler: extract the payer, dispatch
native payments first, then require a signature, then dispatch authorization
before permit. -/
def verify (env : VerifyEnv) (p : X402PaymentPayload) (req : PaymentRequirements) :
    VerifyResult :=
  match payerOf p.payload with
  | none => ⟨false, some "Missing payer address in payment payload", none⟩
  | some payer =>
    match p.payload.nativePayment with
    | some np => verifyNative env np payer
    | none =>
      match jsStr p.payload.signature with
      | none => ⟨false, some "Missing signature in payment payload", some payer⟩
      | some sig =>
        match p.payload.authorization with
        | some auth => verifyAuthBranch env req auth sig payer
        | none =>
          match p.payload.permit with
          | some pp => verifyPermitBranch env req pp sig payer
          | none => ⟨false, some "Missing permit or authorization in payload", some payer⟩

/-- External actions a settle handler can execute, recorded in order:
token collection from the payer (`transferWithAuthorization` or
`permit`+`transferFrom` to the facilitator), bridge quote request, ERC-20
approval of the bridge, bridge transaction submission, bridge status polling,
same-chain direct transfer to the merchant, ledger `registerRequirement`, and
ledger `settle`. -/
inductive Step
  | collectTokens
  | quote
  | approve
  | bridgeSubmit
  | bridgePoll
  | directTransfer
  | registerReq
  | settleTx
deriving DecidableEq, Repr

/-- Bridge quote result (`getSwapBridgeQuote` return value), as consumed by the
settle pipeline. -/
structure BridgeQuote where
  txTo : String
  txData : String
  txValue : Nat
  requestId : String
  expectedInput : String
  expectedOutput : String
deriving DecidableEq, Repr

/-- Result shape of the `/settle` endpoint (part_001 handler). -/
structure SettleResult where
  success : Bool
  transaction : Option String
  network : Option String
  payer : Option String
  errorReason : Option String
deriving DecidableEq, Repr

/-- Oracles for the external calls of one x402 `/settle` request.
`Except.error msg` models a thrown error whose `.message` is `msg`. -/
structure SettleEnv where
  statusAt : Nat → SwapStatus
  collectAuthRes : Except String Unit
  collectPermitRes : Except String Unit
  quoteRes : Except String BridgeQuote
  approveRes : Except String Unit
  submitRes : Except String String
  sameChainAuthRes : Except String String
  sameChainPermitRes : Except String String

/-- The zero address (`NATIVE_TOKEN_ADDRESS`). -/
def ZERO_ADDR : String := "0x0000000000000000000000000000000000000000"

/-- Step 1 of the cross-chain pipeline: take tokens from the customer via
EIP-3009 if an authorization is present, else via permit+transferFrom if a
permit is present; with neither, the handler silently skips collection. -/
def collectStep (env : SettleEnv) (b : PayloadBody) : Except String Unit × List Step :=
  match b.authorization with
  | some _ => (env.collectAuthRes, [Step.collectTokens])
  | none =>
    match b.permit with
    | some _ => (env.collectPermitRes, [Step.collectTokens])
    | none => (Except.ok (), [])

/-- Steps 4-5 of the cross-chain pipeline: submit the quote's transaction, then
poll relay up to 60 one-second attempts; a non-COMPLETED final status is a
failure carrying the last-known status, a thrown submission error is caught by
the surrounding try as a swap/bridge failure. -/
def bridgeSubmitAndPoll (env : SettleEnv) (networkTag payer : String) (tr : List Step) :
    SettleResult × List Step :=
  match env.submitRes with
  | .error msg =>
    (⟨false, none, none, some payer, some ("Swap/Bridge failed: " ++ msg)⟩,
      tr ++ [Step.bridgeSubmit])
  | .ok txh =>
    let st := (pollFrom env.statusAt 60 0 (env.statusAt 0)).1
    if st ≠ .COMPLETED then
      (⟨false, none, none, some payer,
        some ("Relay swap/bridge not completed. Status: " ++ st.str)⟩,
        tr ++ [Step.bridgeSubmit, Step.bridgePoll])
    else
      (⟨true, some txh, some networkTag, some payer, none⟩,
        tr ++ [Step.bridgeSubmit, Step.bridgePoll])

/-- Step 3 of the cross-chain pipeline: approve the bridge contract for
unlimited spend unless the source token is the chain-native zero address,
then submit and poll. -/
def approveThen (env : SettleEnv) (networkTag payer srcToken : String) (tr : List Step) :
    SettleResult × List Step :=
  if lowerAscii srcToken ≠ ZERO_ADDR then
    match env.approveRes with
    | .error msg =>
      (⟨false, none, none, some payer, some ("Swap/Bridge failed: " ++ msg)⟩,
        tr ++ [Step.approve])
    | .ok _ => bridgeSubmitAndPoll env networkTag payer (tr ++ [Step.approve])
  else bridgeSubmitAndPoll env networkTag payer tr

/-- Same-chain same-token settlement: execute the collection primitive with the
merchant as direct recipient (authorization first, else permit; with neither
the handler falls through and reports success with no transaction). -/
def sameChainSettle (env : SettleEnv) (networkTag payer : String) (b : PayloadBody) :
    SettleResult × List Step :=
  match b.authorization with
  | some _ =>
    match env.sameChainAuthRes with
    | .error msg =>
      (⟨false, none, none, some payer, some ("Settlement failed: " ++ msg)⟩,
        [Step.directTransfer])
    | .ok txh => (⟨true, some txh, some networkTag, some payer, none⟩, [Step.directTransfer])
  | none =>
    match b.permit with
    | some _ =>
      match env.sameChainPermitRes with
      | .error msg =>
        (⟨false, none, none, some payer, some ("Settlement failed: " ++ msg)⟩,
          [Step.directTransfer])
      | .ok txh => (⟨true, some txh, some networkTag, some payer, none⟩, [Step.directTransfer])
    | none => (⟨true, none, some networkTag, some payer, none⟩, [])

/-- The x402-compliant `POST /settle` handler (part_001): payer extraction with
the same precedence as `/verify`; native payments return success immediately
with the original transaction hash and no further action; permit/authorization
payments require a signature and run either the cross-chain
collect→quote→approve→bridge→poll pipeline or the same-chain direct transfer.
No settlement-ledger call of any kind occurs in this handler. -/
def settleV2 (env : SettleEnv) (p : X402PaymentPayload) (req : PaymentRequirements) :
    SettleResult × List Step :=
  match payerOf p.payload with
  | none => (⟨false, none, none, none, some "Missing payer in payment payload"⟩, [])
  | some payer =>
    match p.payload.nativePayment with
    | some np => (⟨true, some np.txHash, some p.network, some payer, none⟩, [])
    | none =>
      match jsStr p.payload.signature with
      | none => (⟨false, none, none, some payer, some "Missing signature in payment payload"⟩, [])
      | some _ =>
        let srcToken := srcTokenOf req
        if srcChainIdOf req p.network ≠ destChainIdOf req ∨
            lowerAscii srcToken ≠ lowerAscii req.asset then
          match collectStep env p.payload with
          | (.error msg, tr) =>
            (⟨false, none, none, some payer, some ("Failed to take tokens: " ++ msg)⟩, tr)
          | (.ok _, tr) =>
            match env.quoteRes with
            | .error msg =>
              (⟨false, none, none, some payer, some ("Swap/Bridge failed: " ++ msg)⟩,
                tr ++ [Step.quote])
            | .ok _ => approveThen env p.network payer srcToken (tr ++ [Step.quote])
        else sameChainSettle env p.network payer p.payload

/-- `paymentId` derivation of the ledger-based handler:
`ethers.id(txHash + '_' + from + '_' + payTo)`.  The deterministic keccak hash
is modelled by its (injective) preimage string. -/
def paymentIdOf (txHash payer payTo : String) : String :=
  txHash ++ "_" ++ payer ++ "_" ++ payTo

/-- `paymentPayload.data` fields read by the ledger-based handler. -/
structure V1Data where
  transactionHash : Option String
  requestId : Option String
  fromAddr : Option String
deriving DecidableEq, Repr

/-- Result shape of the ledger-based `/settle` handler; it only ever sends
`success` and optionally `errorReason` (never a transaction hash), so
`transaction` is kept to state that fact. -/
structure V1Result where
  success : Bool
  transaction : Option String
  errorReason : Option String
deriving DecidableEq, Repr

/-- Oracles for the external calls of one ledger-based `/settle` request:
the relay status sequence, the `registerRequirement` transaction outcome and
the `settle` transaction outcome. -/
structure V1Env where
  statusAt : Nat → SwapStatus
  registerRes : Except String Unit
  settleRes : Except String Unit

/-- Tail of the ledger-based handler: `registerRequirement` inside a try/catch
whose error is logged and swallowed, then `settlePayment`; a settlement error
reaches the outer catch and is surfaced, success marks the ledger entry
settled (the contract flips `isSettled[paymentId]`). -/
def v1Finish (ledger : String → Bool) (env : V1Env) (pid : String) (tr : List Step) :
    V1Result × (String → Bool) × List Step :=
  match env.settleRes with
  | .error e => (⟨false, none, some e⟩, ledger, tr ++ [Step.registerReq, Step.settleTx])
  | .ok _ =>
    (⟨true, none, none⟩, (fun x => if x = pid then true else ledger x),
      tr ++ [Step.registerReq, Step.settleTx])

/-- The ledger-based `POST /settle` handler (part_000): require a transaction
hash and payer, derive the PaymentId, short-circuit to `{success:true}` when
the ledger already reports it settled, otherwise wait for the bridge when the
requirement is cross-chain (up to 10 one-second attempts), then register the
requirement (duplicate errors swallowed) and settle on-chain. -/
def settleV1 (ledger : String → Bool) (env : V1Env) (d : V1Data) (req : PaymentRequirements) :
    V1Result × (String → Bool) × List Step :=
  match jsStr d.transactionHash, jsStr d.fromAddr with
  | some txHash, some payer =>
    let pid := paymentIdOf txHash payer req.payTo
    if ledger pid then (⟨true, none, none⟩, ledger, [])
    else
      if (jsStr req.srcNetwork).isSome ∨ (jsStr req.srcTokenAddress).isSome then
        let st := (pollFrom env.statusAt 10 0 (env.statusAt 0)).1
        if st ≠ .COMPLETED then
          (⟨false, none, some ("Bridge not completed. Status: " ++ st.str)⟩, ledger,
            [Step.bridgePoll])
        else v1Finish ledger env pid [Step.bridgePoll]
      else v1Finish ledger env pid []
  | _, _ => (⟨false, none, some "Missing transaction hash or payer address"⟩, ledger, [])

/-! Concrete instances used by counterexamples and witnesses. -/

/-- A ledger on which the payment id of (`0xabc`, `0xpayer`, `0xmerchant`) is
already settled. -/
def ledgerC1 : String → Bool := fun pid => pid == paymentIdOf "0xabc" "0xpayer" "0xmerchant"

/-- A settle environment whose token collection fails on-chain. -/
def envC1 : SettleEnv where
  statusAt := fun _ => .PENDING
  collectAuthRes := .error "auth transfer reverted"
  collectPermitRes := .error "ERC20: insufficient allowance"
  quoteRes := .error "no quote"
  approveRes := .ok ()
  submitRes := .error "no submit"
  sameChainAuthRes := .error "no tx"
  sameChainPermitRes := .error "no tx"

/-- A cross-chain permit payment payload (WETH on Arbitrum). -/
def permitC1 : PermitPayload where
  owner := "0xpayer"
  spender := "0xfac"
  value := 100
  nonce := 0
  deadline := 99999

/-- The x402 payload wrapping `permitC1`. -/
def payloadC1 : X402PaymentPayload where
  x402Version := 1
  scheme := "exact"
  network := "arbitrum"
  payload := { permit := some permitC1, authorization := none,
               nativePayment := none, signature := some "0xsig" }

/-- Cross-chain requirements: WETH on Arbitrum in, USDC on Base out. -/
def reqC1 : PaymentRequirements where
  payTo := "0xmerchant"
  maxAmountRequired := 1000000
  srcAmountRequired := some 100
  asset := "0xusdcbase"
  srcTokenAddress := some "0xwetharb"
  srcNetwork := some "arbitrum"
  network := "base"

/-- A settle environment for which the whole cross-chain pipeline succeeds
(the bridge poll sees PENDING once, then COMPLETED). -/
def envC2 : SettleEnv where
  statusAt := fun n => if n = 0 then .PENDING else .COMPLETED
  collectAuthRes := .ok ()
  collectPermitRes := .ok ()
  quoteRes := .ok { txTo := "0xrelay", txData := "0xcalldata", txValue := 0,
                    requestId := "0xreq", expectedInput := "101", expectedOutput := "1000000" }
  approveRes := .ok ()
  submitRes := .ok "0xbridgetx"
  sameChainAuthRes := .ok "0xsamechaintx"
  sameChainPermitRes := .ok "0xsamechaintx"

/-- The x402 payload for the C2 counterexample run (same shape as C1's). -/
def payloadC2 : X402PaymentPayload where
  x402Version := 1
  scheme := "exact"
  network := "arbitrum"
  payload := { permit := some { owner := "0xpayer", spender := "0xfac", value := 101,
                                nonce := 0, deadline := 99999 },
               authorization := none, nativePayment := none, signature := some "0xsig" }

/-- Requirements for the C2 counterexample run. -/
def reqC2 : PaymentRequirements where
  payTo := "0xmerchant"
  maxAmountRequired := 1000000
  srcAmountRequired := some 101
  asset := "0xusdcbase"
  srcTokenAddress := some "0xwetharb"
  srcNetwork := some "arbitrum"
  network := "base"

/-- A ledger-based environment whose bridge completes and whose ledger
transactions succeed. -/
def envW2 : V1Env where
  statusAt := fun _ => .COMPLETED
  registerRes := .error "requirement already registered"
  settleRes := .ok ()

/-- Request data for the ledger-based handler. -/
def dW2 : V1Data where
  transactionHash := some "0xabc"
  requestId := some "0xreq"
  fromAddr := some "0xpayer"

/-- Requirements for the ledger-based handler runs (cross-chain). -/
def reqW2 : PaymentRequirements where
  payTo := "0xmerchant"
  maxAmountRequired := 1000000
  srcAmountRequired := none
  asset := "0xusdcbase"
  srcTokenAddress := some "0xwetharb"
  srcNetwork := some "arbitrum"
  network := "base"

/-- Contract state in which payment id `0xpid1` is already settled. -/
def stC3 : ContractState where
  settler := "0xsettler"
  requirements := fun _ => { token := "0xtok", minAmount := 1, payee := "0xmerchant" }
  isSettled := fun pid => pid == "0xpid1"

/-- Verify environment whose relay status never leaves PENDING and whose
signature recovery always throws. -/
def envC7 : VerifyEnv where
  now := 1000
  facilitatorAddr := "0xfac"
  statusAt := fun _ => .PENDING
  recoverAuth := fun _ _ _ => none
  recoverPermit := fun _ _ _ => none

/-- Authorization signed for 7 units, below `maxAmountRequired = 10` but above
`srcAmountRequired = 5`. -/
def authC7 : AuthorizationPayload where
  fromAddr := "0xpayer"
  toAddr := "0xmerchant"
  value := 7
  validAfter := 0
  validBefore := 2000
  nonce := "0xnonce"

/-- The x402 payload wrapping `authC7`. -/
def payloadC7 : X402PaymentPayload where
  x402Version := 1
  scheme := "exact"
  network := "base"
  payload := { permit := none, authorization := some authC7,
               nativePayment := none, signature := some "0xsig" }

/-- Requirements whose `srcAmountRequired` (5) is below `maxAmountRequired`
(10), so the handler compares against 5, not 10. -/
def reqC7 : PaymentRequirements where
  payTo := "0xmerchant"
  maxAmountRequired := 10
  srcAmountRequired := some 5
  asset := "0xusdcbase"
  srcTokenAddress := some "0xusdcarb"
  srcNetwork := some "arbitrum"
  network := "base"

/-- Verify environment for witnesses: clock at 1000, recovery recovers
`0xother` (a signer different from the payer). -/
def envW8 : VerifyEnv where
  now := 1000
  facilitatorAddr := "0xfac"
  statusAt := fun _ => .PENDING
  recoverAuth := fun _ _ _ => some "0xother"
  recoverPermit := fun _ _ _ => some "0xother"

/-- Expired authorization: `validBefore = 999 < 1000 + 6`. -/
def authW8 : AuthorizationPayload where
  fromAddr := "0xpayer"
  toAddr := "0xmerchant"
  value := 50
  validAfter := 0
  validBefore := 999
  nonce := "0xnonce"

/-- The x402 payload wrapping `authW8`. -/
def payloadW8 : X402PaymentPayload where
  x402Version := 1
  scheme := "exact"
  network := "base"
  payload := { permit := none, authorization := some authW8,
               nativePayment := none, signature := some "0xsig" }

/-- Plain same-chain requirements used by several witnesses. -/
def reqW8 : PaymentRequirements where
  payTo := "0xmerchant"
  maxAmountRequired := 50
  srcAmountRequired := none
  asset := "0xusdcbase"
  srcTokenAddress := none
  srcNetwork := none
  network := "base"

/-- Authorization whose `to` (`0xEvil`) matches neither `payTo` nor the
facilitator address, with a far-future deadline. -/
def authW9 : AuthorizationPayload where
  fromAddr := "0xpayer"
  toAddr := "0xEvil"
  value := 50
  validAfter := 0
  validBefore := 999999
  nonce := "0xnonce"

/-- The x402 payload wrapping `authW9`. -/
def payloadW9 : X402PaymentPayload where
  x402Version := 1
  scheme := "exact"
  network := "base"
  payload := { permit := none, authorization := some authW9,
               nativePayment := none, signature := some "0xsig" }

/-- Native payment proof used by witnesses. -/
def npW10 : NativePayment where
  fromAddr := "0xcustomer"
  txHash := "0xnativetx"
  amount := "1000000000000000000"
  chainId := 42161
  requestId := some "0xreq"

/-- A payload that populates BOTH the permit and the nativePayment variants. -/
def payloadW10 : X402PaymentPayload where
  x402Version := 1
  scheme := "exact"
  network := "arbitrum"
  payload := { permit := some permitC1, authorization := none,
               nativePayment := some npW10, signature := some "0xsig" }

/-- A verify environment whose bridge poll completes immediately. -/
def envW10 : VerifyEnv where
  now := 1000
  facilitatorAddr := "0xfac"
  statusAt := fun _ => .COMPLETED
  recoverAuth := fun _ _ _ => none
  recoverPermit := fun _ _ _ => none

/-- A native-only payload used by the C6 witness. -/
def payloadW6 : X402PaymentPayload where
  x402Version := 1
  scheme := "exact"
  network := "arbitrum"
  payload := { permit := none, authorization := none,
               nativePayment := some npW10, signature := none }

/-- A verify environment that always reports PENDING (for the C5 witness). -/
def envW5 : VerifyEnv where
  now := 1000
  facilitatorAddr := "0xfac"
  statusAt := fun _ => .PENDING
  recoverAuth := fun _ _ _ => none
  recoverPermit := fun _ _ _ => none

/-- A settle environment whose bridge submission succeeds but whose status
never leaves PENDING (for the C5 witness). -/
def envW5s : SettleEnv where
  statusAt := fun _ => .PENDING
  collectAuthRes := .ok ()
  collectPermitRes := .ok ()
  quoteRes := .ok { txTo := "0xrelay", txData := "0xcalldata", txValue := 0,
                    requestId := "0xreq", expectedInput := "101", expectedOutput := "1000000" }
  approveRes := .ok ()
  submitRes := .ok "0xbridgetx"
  sameChainAuthRes := .ok "0xsamechaintx"
  sameChainPermitRes := .ok "0xsamechaintx"

/-- Authorization signed for 3 units, below the effective minimum 5 of
`reqC7`, with a far-future deadline and matching recipient. -/
def authW7 : AuthorizationPayload where
  fromAddr := "0xpayer"
  toAddr := "0xmerchant"
  value := 3
  validAfter := 0
  validBefore := 2000
  nonce := "0xnonce"

/-- The x402 payload wrapping `authW7`. -/
def payloadW7 : X402PaymentPayload where
  x402Version := 1
  scheme := "exact"
  network := "base"
  payload := { permit := none, authorization := some authW7,
               nativePayment := none, signature := some "0xsig" }

/-- An empty ledger: no payment id settled. -/
def ledgerEmpty : String → Bool := fun _ => false

/-! Helper lemmas. -/

/-- The attempts counter of the polling loop never exceeds the budget. -/
theorem pollFrom_attempts_le (s : Nat → SwapStatus) :
    ∀ (fuel a : Nat) (cur : SwapStatus), (pollFrom s fuel a cur).2 ≤ a + fuel := by
  intro fuel
  induction fuel with
  | zero => intro a cur; simp [pollFrom]
  | succ n ih =>
    intro a cur
    unfold pollFrom
    by_cases hc : cur = SwapStatus.PENDING
    · rw [if_pos hc]
      exact le_trans (ih (a + 1) (s (a + 1))) (by omega)
    · rw [if_neg hc]
      simp

/-- The loop ends with a PENDING status only when the budget is exhausted. -/
theorem pollFrom_pending_exhausts (s : Nat → SwapStatus) :
    ∀ (fuel a : Nat) (cur : SwapStatus),
      (pollFrom s fuel a cur).1 = .PENDING → (pollFrom s fuel a cur).2 = a + fuel := by
  intro fuel
  induction fuel with
  | zero => intro a cur _; simp [pollFrom]
  | succ n ih =>
    intro a cur h
    unfold pollFrom at h ⊢
    by_cases hc : cur = SwapStatus.PENDING
    · subst hc
      rw [if_pos rfl] at h ⊢
      have := ih (a + 1) (s (a + 1)) h
      omega
    · simp only [if_neg hc] at h
      exact absurd h hc

/-- `/verify` dispatches to the native branch whenever `nativePayment` is
populated, with whatever payer the `||` chain extracted. -/
theorem verify_eq_native (env : VerifyEnv) (p : X402PaymentPayload)
    (req : PaymentRequirements) (np : NativePayment) (payer : String)
    (hpayer : payerOf p.payload = some payer)
    (hnp : p.payload.nativePayment = some np) :
    verify env p req = verifyNative env np payer := by
  unfold verify
  rw [hpayer, hnp]

/-- `/verify` dispatches to the authorization branch when no native payment is
present, a signature is present and an authorization is present (a permit may
also be present: authorization wins). -/
theorem verify_eq_authBranch (env : VerifyEnv) (p : X402PaymentPayload)
    (req : PaymentRequirements) (auth : AuthorizationPayload) (sig payer : String)
    (hpayer : payerOf p.payload = some payer)
    (hnp : p.payload.nativePayment = none)
    (hsig : jsStr p.payload.signature = some sig)
    (hauth : p.payload.authorization = some auth) :
    verify env p req = verifyAuthBranch env req auth sig payer := by
  unfold verify
  rw [hpayer, hnp, hsig, hauth]

/-- `/verify` dispatches to the permit branch when neither a native payment nor
an authorization is present and a signature is. -/
theorem verify_eq_permitBranch (env : VerifyEnv) (p : X402PaymentPayload)
    (req : PaymentRequirements) (pp : PermitPayload) (sig payer : String)
    (hpayer : payerOf p.payload = some payer)
    (hnp : p.payload.nativePayment = none)
    (hsig : jsStr p.payload.signature = some sig)
    (hauth : p.payload.authorization = none)
    (hpp : p.payload.permit = some pp) :
    verify env p req = verifyPermitBranch env req pp sig payer := by
  unfold verify
  rw [hpayer, hnp, hsig, hauth, hpp]

/-- A successful run of the ledger-based settle tail marks the payment id
settled on the ledger. -/
theorem v1Finish_success_settled (ledger : String → Bool) (env : V1Env) (pid : String)
    (tr : List Step) (h : (v1Finish ledger env pid tr).1.success = true) :
    (v1Finish ledger env pid tr).2.1 pid = true := by
  unfold v1Finish at h ⊢
  cases henv : env.settleRes with
  | error e => rw [henv] at h; simp at h
  | ok u => simp

/-- The ledger-based settle tail always executes the registration and the
settlement transaction. -/
theorem v1Finish_steps (ledger : String → Bool) (env : V1Env) (pid : String)
    (tr : List Step) :
    Step.registerReq ∈ (v1Finish ledger env pid tr).2.2 ∧
      Step.settleTx ∈ (v1Finish ledger env pid tr).2.2 := by
  unfold v1Finish
  cases env.settleRes <;> simp

/-- The collection step never issues a ledger call. -/
theorem collectStep_no_ledger (env : SettleEnv) (b : PayloadBody) :
    Step.registerReq ∉ (collectStep env b).2 ∧ Step.settleTx ∉ (collectStep env b).2 := by
  unfold collectStep
  cases b.authorization <;> cases b.permit <;> simp

/-- Bridge submission and polling never issue a ledger call beyond those
already in the incoming trace. -/
theorem bridgeSubmitAndPoll_no_ledger (env : SettleEnv) (networkTag payer : String)
    (tr : List Step) (hr : Step.registerReq ∉ tr) (hs : Step.settleTx ∉ tr) :
    Step.registerReq ∉ (bridgeSubmitAndPoll env networkTag payer tr).2 ∧
      Step.settleTx ∉ (bridgeSubmitAndPoll env networkTag payer tr).2 := by
  unfold bridgeSubmitAndPoll
  cases env.submitRes with
  | error msg => simp [hr, hs]
  | ok txh =>
    by_cases hc : (pollFrom env.statusAt 60 0 (env.statusAt 0)).1 = SwapStatus.COMPLETED <;>
      simp [hc, hr, hs]

/-- The approve-then-bridge tail never issues a ledger call beyond those
already in the incoming trace. -/
theorem approveThen_no_ledger (env : SettleEnv) (networkTag payer srcToken : String)
    (tr : List Step) (hr : Step.registerReq ∉ tr) (hs : Step.settleTx ∉ tr) :
    Step.registerReq ∉ (approveThen env networkTag payer srcToken tr).2 ∧
      Step.settleTx ∉ (approveThen env networkTag payer srcToken tr).2 := by
  unfold approveThen
  split
  · cases henv : env.approveRes with
    | error msg => simp [hr, hs]
    | ok u =>
      exact bridgeSubmitAndPoll_no_ledger env networkTag payer (tr ++ [Step.approve])
        (by simp [hr]) (by simp [hs])
  · exact bridgeSubmitAndPoll_no_ledger env networkTag payer tr hr hs

/-- Same-chain settlement never issues a ledger call. -/
theorem sameChainSettle_no_ledger (env : SettleEnv) (networkTag payer : String)
    (b : PayloadBody) :
    Step.registerReq ∉ (sameChainSettle env networkTag payer b).2 ∧
      Step.settleTx ∉ (sameChainSettle env networkTag payer b).2 := by
  unfold sameChainSettle
  cases b.authorization with
  | some a => cases env.sameChainAuthRes <;> simp
  | none =>
    cases b.permit with
    | some pp => cases env.sameChainPermitRes <;> simp
    | none => simp

/-- The x402-compliant settle handler performs no settlement-ledger call on any
path: no `registerRequirement` and no ledger `settle` transaction ever appears
in its trace. -/
theorem settleV2_no_ledger (env : SettleEnv) (p : X402PaymentPayload)
    (req : PaymentRequirements) :
    Step.registerReq ∉ (settleV2 env p req).2 ∧ Step.settleTx ∉ (settleV2 env p req).2 := by
  rcases hp : payerOf p.payload with _ | payer
  · simp [settleV2, hp]
  · rcases hn : p.payload.nativePayment with _ | np
    · rcases hs : jsStr p.payload.signature with _ | sig
      · simp [settleV2, hp, hn, hs]
      · simp only [settleV2, hp, hn, hs]
        by_cases hcond : srcChainIdOf req p.network ≠ destChainIdOf req ∨
            lowerAscii (srcTokenOf req) ≠ lowerAscii req.asset
        · rw [if_pos hcond]
          rcases hc : collectStep env p.payload with ⟨cres, ctr⟩
          have hcl := collectStep_no_ledger env p.payload
          rw [hc] at hcl
          cases cres with
          | error msg => simp; exact hcl
          | ok u =>
            rcases hq : env.quoteRes with msg | q
            · simp only [hq]
              refine ⟨?_, ?_⟩ <;> simp [hcl.1, hcl.2]
            · simp only [hq]
              exact approveThen_no_ledger env p.network payer (srcTokenOf req)
                (ctr ++ [Step.quote]) (by simp [hcl.1]) (by simp [hcl.2])
        · rw [if_neg hcond]
          exact sameChainSettle_no_ledger env p.network payer p.payload
    · simp [settleV2, hp, hn]

/-- Payer extraction: a populated permit with a truthy owner always wins. -/
theorem payerOf_permit (b : PayloadBody) (pp : PermitPayload)
    (hpp : b.permit = some pp) (ho : pp.owner ≠ "") : payerOf b = some pp.owner := by
  simp [payerOf, hpp, jsStr, ho]

/-- The native branch of the x402 settle handler: immediate success carrying
the original transaction hash, with an empty action trace. -/
theorem settleV2_native (env : SettleEnv) (p : X402PaymentPayload)
    (req : PaymentRequirements) (np : NativePayment) (payer : String)
    (hnp : p.payload.nativePayment = some np)
    (hpayer : payerOf p.payload = some payer) :
    settleV2 env p req = (⟨true, some np.txHash, some p.network, some payer, none⟩, []) := by
  unfold settleV2
  rw [hpayer, hnp]

/-- The ledger-based settle handler short-circuits to `{success:true}` with no
external action when the ledger already reports the payment id settled. -/
theorem settleV1_shortcircuit (ledger : String → Bool) (env : V1Env) (d : V1Data)
    (req : PaymentRequirements) (txHash payer : String)
    (htx : jsStr d.transactionHash = some txHash)
    (hp : jsStr d.fromAddr = some payer)
    (hset : ledger (paymentIdOf txHash payer req.payTo) = true) :
    settleV1 ledger env d req = (⟨true, none, none⟩, ledger, []) := by
  unfold settleV1
  rw [htx, hp]
  simp [hset]

/-- A successful run of the ledger-based settle handler leaves the payment id
settled on the ledger. -/
theorem settleV1_success_marks (ledger : String → Bool) (env : V1Env) (d : V1Data)
    (req : PaymentRequirements) (txHash payer : String)
    (htx : jsStr d.transactionHash = some txHash)
    (hp : jsStr d.fromAddr = some payer)
    (h : (settleV1 ledger env d req).1.success = true) :
    (settleV1 ledger env d req).2.1 (paymentIdOf txHash payer req.payTo) = true := by
  unfold settleV1 at h ⊢
  rw [htx, hp] at h ⊢
  simp only [] at h ⊢
  by_cases hset : ledger (paymentIdOf txHash payer req.payTo) = true
  · simp [hset]
  · rw [if_neg hset] at h ⊢
    by_cases hcc : (jsStr req.srcNetwork).isSome ∨ (jsStr req.srcTokenAddress).isSome
    · rw [if_pos hcc] at h ⊢
      by_cases hst : (pollFrom env.statusAt 10 0 (env.statusAt 0)).1 ≠ SwapStatus.COMPLETED
      · rw [if_pos hst] at h
        simp at h
      · rw [if_neg hst] at h ⊢
        exact v1Finish_success_settled ledger env _ _ h
    · rw [if_neg hcc] at h ⊢
      exact v1Finish_success_settled ledger env _ _ h

/-! Claim theorems. -/

/-- C3 counterexample: the claim says a second `settle` call on an
already-settled PaymentId "completes without reverting"; on the concrete state
`stC3`, in which `0xpid1` is already settled, the contract instead reverts
with `AlreadySettled` even for the authorized settler with a matching token
and sufficient amount. -/
theorem C3_counterexample :
    PaymentSettlement.settle stC3 "0xsettler" "0xpid1" "0xpayer" 5 "0xtok" =
      Except.error ContractError.AlreadySettled := by
  rfl

/-- C3 (amended): a second `settle` call with an already-settled PaymentId
reverts with the `AlreadySettled` custom error (leaving the ledger state
unchanged, as every revert does); it is NOT a no-op success.  The no-op-success
idempotency the claim describes lives one layer up, in the facilitator's
`isSettled` short-circuit. -/
theorem C3_settle_reverts_alreadySettled (st : ContractState)
    (sender paymentId payer : String) (amount : Nat) (token : String)
    (hsender : sender = st.settler) (hset : st.isSettled paymentId = true) :
    PaymentSettlement.settle st sender paymentId payer amount token =
      Except.error ContractError.AlreadySettled := by
  unfold PaymentSettlement.settle
  rw [if_neg (by simp [hsender]), if_pos hset]

/-- C3 witness: the amended theorem applied to the concrete state `stC3`. -/
theorem C3_witness :
    PaymentSettlement.settle stC3 "0xsettler" "0xpid1" "0xother" 9 "0xtok" =
      Except.error ContractError.AlreadySettled :=
  C3_settle_reverts_alreadySettled stC3 "0xsettler" "0xpid1" "0xother" 9 "0xtok" rfl rfl

/-- C4: `getSwapStatus` maps provider status "success" (and nothing else) to
COMPLETED, "failure" and "refund" to FAILED, every other provider string, a
missing status field, and any HTTP/transport/parse error to PENDING; it is a
total function (never throws), and the `packages/facilitator` variant computes
exactly the same mapping. -/
theorem C4_status_mapping :
    (∀ f, getSwapStatus f = SwapStatus.COMPLETED ↔ f = StatusFetch.ok (some "success"))
    ∧ getSwapStatus (StatusFetch.ok (some "failure")) = SwapStatus.FAILED
    ∧ getSwapStatus (StatusFetch.ok (some "refund")) = SwapStatus.FAILED
    ∧ (∀ s, s ≠ "success" → s ≠ "failure" → s ≠ "refund" →
        getSwapStatus (StatusFetch.ok (some s)) = SwapStatus.PENDING)
    ∧ getSwapStatus (StatusFetch.ok none) = SwapStatus.PENDING
    ∧ getSwapStatus StatusFetch.httpError = SwapStatus.PENDING
    ∧ (∀ f, getSwapStatusPkg f = getSwapStatus f) := by
  refine ⟨?_, rfl, rfl, ?_, rfl, rfl, ?_⟩
  · intro f
    rcases f with _ | st
    · simp [getSwapStatus]
    · by_cases h1 : st = some "success"
      · simp [getSwapStatus, h1]
      · by_cases h2 : st = some "failure" ∨ st = some "refund"
        · simp only [getSwapStatus, if_neg h1, if_pos h2]
          constructor
          · intro hc; exact absurd hc (by decide)
          · intro hc; simp at hc; exact absurd hc h1
        · simp only [getSwapStatus, if_neg h1, if_neg h2]
          constructor
          · intro hc; exact absurd hc (by decide)
          · intro hc; simp at hc; exact absurd hc h1
  · intro s h1 h2 h3
    simp [getSwapStatus, h1, h2, h3]
  · intro f
    rcases f with _ | st
    · rfl
    · by_cases h1 : st = some "success"
      · simp [getSwapStatusPkg, getSwapStatus, h1]
      · by_cases h2 : st = some "failure"
        · simp [getSwapStatusPkg, getSwapStatus, h1, h2]
        · by_cases h3 : st = some "refund"
          · simp [getSwapStatusPkg, getSwapStatus, h1, h2, h3]
          · simp [getSwapStatusPkg, getSwapStatus, h1, h2, h3]

/-- C4 witness: the unlisted provider string "submitted" maps to PENDING. -/
theorem C4_witness :
    getSwapStatus (StatusFetch.ok (some "submitted")) = SwapStatus.PENDING :=
  C4_status_mapping.2.2.2.1 "submitted" (by decide) (by decide) (by decide)

/-- C5: both bridge-status polling loops (the `/verify` native loop and the
`/settle` pipeline loop, both with a 60-attempt budget and a 1-second sleep)
terminate with an attempts counter of at most 60; a loop that ends still
PENDING has used its full budget, and in that case `/verify` returns
`isValid:false` with a reason carrying the last-known status (distinct from
the bridge-FAILED reason), while `/settle` returns `success:false` with a
reason carrying the last-known status (distinct from the same message for a
FAILED status). -/
theorem C5_poll_bounded :
    (∀ s : Nat → SwapStatus, (pollFrom s 60 0 (s 0)).2 ≤ 60)
    ∧ (∀ s : Nat → SwapStatus,
        (pollFrom s 60 0 (s 0)).1 = SwapStatus.PENDING → (pollFrom s 60 0 (s 0)).2 = 60)
    ∧ (∀ (env : VerifyEnv) (np : NativePayment) (payer : String),
        (pollFrom env.statusAt 60 0 (env.statusAt 0)).1 = SwapStatus.PENDING →
        verifyNative env np payer =
          ⟨false, some ("Native payment pending. Status: " ++ SwapStatus.str .PENDING),
            some payer⟩)
    ∧ ("Native payment pending. Status: " ++ SwapStatus.str .PENDING ≠
        "Native payment failed on Relay")
    ∧ (∀ (env : SettleEnv) (networkTag payer txh : String) (tr : List Step),
        env.submitRes = Except.ok txh →
        (pollFrom env.statusAt 60 0 (env.statusAt 0)).1 = SwapStatus.PENDING →
        bridgeSubmitAndPoll env networkTag payer tr =
          (⟨false, none, none, some payer,
            some ("Relay swap/bridge not completed. Status: " ++ SwapStatus.str .PENDING)⟩,
            tr ++ [Step.bridgeSubmit, Step.bridgePoll]))
    ∧ ("Relay swap/bridge not completed. Status: " ++ SwapStatus.str .PENDING ≠
        "Relay swap/bridge not completed. Status: " ++ SwapStatus.str .FAILED) := by
  refine ⟨?_, ?_, ?_, by decide, ?_, by decide⟩
  · intro s
    simpa using pollFrom_attempts_le s 60 0 (s 0)
  · intro s h
    simpa using pollFrom_pending_exhausts s 60 0 (s 0) h
  · intro env np payer h
    unfold verifyNative
    rw [h]
  · intro env networkTag payer txh tr hsub hpoll
    unfold bridgeSubmitAndPoll
    rw [hsub]
    simp only []
    rw [hpoll]
    rw [if_pos (by decide)]

/-- C5 witness: with a status oracle that never leaves PENDING, the native
verify branch rejects with the pending reason after the poll budget. -/
theorem C5_witness :
    verifyNative envW5 npW10 "0xcustomer" =
      ⟨false, some ("Native payment pending. Status: " ++ SwapStatus.str .PENDING),
        some "0xcustomer"⟩ :=
  C5_poll_bounded.2.2.1 envW5 npW10 "0xcustomer" (by rfl)

/-- C6: for every payload whose `nativePayment` variant is populated and whose
payer extraction succeeds, the x402 settle handler returns `success:true` with
the payload's original transaction hash and an EMPTY action trace: no bridge
status query (no re-poll) and no on-chain transaction of any kind. -/
theorem C6_native_settle_no_action (env : SettleEnv) (p : X402PaymentPayload)
    (req : PaymentRequirements) (np : NativePayment) (payer : String)
    (hnp : p.payload.nativePayment = some np)
    (hpayer : payerOf p.payload = some payer) :
    settleV2 env p req = (⟨true, some np.txHash, some p.network, some payer, none⟩, []) :=
  settleV2_native env p req np payer hnp hpayer

/-- C6 witness: a concrete native settle run returning the original tx hash
with no actions. -/
theorem C6_witness :
    settleV2 envW5s payloadW6 reqC1 =
      (⟨true, some "0xnativetx", some "arbitrum", some "0xcustomer", none⟩, []) :=
  C6_native_settle_no_action envW5s payloadW6 reqC1 npW10 "0xcustomer" rfl rfl

/-- C7 counterexample: the claim says a signed value strictly below the
requirement's `maxAmountRequired` is rejected with an insufficient-amount
reason.  On `reqC7` (`maxAmountRequired = 10`, `srcAmountRequired = 5`) the
handler compares against `srcAmountRequired || maxAmountRequired`, so the
authorization `authC7` with value `7 < 10` passes the amount check and verify
proceeds to signature recovery, answering "Invalid signature" instead. -/
theorem C7_counterexample :
    authC7.value < reqC7.maxAmountRequired ∧
      verify envC7 payloadC7 reqC7 = ⟨false, some "Invalid signature", some "0xpayer"⟩ := by
  exact ⟨by decide, by decide⟩

/-- C7 (amended): the amount threshold is the EFFECTIVE minimum
`srcAmountRequired || maxAmountRequired` (which equals `maxAmountRequired`
exactly when no source amount is present).  For an authorization or permit
that passes the deadline and recipient checks, a signed value strictly below
that threshold is rejected with the scheme's insufficient-amount reason, and a
value at or above it passes the amount check. -/
theorem C7_amount_check_effective_min :
    (∀ (env : VerifyEnv) (p : X402PaymentPayload) (req : PaymentRequirements)
        (auth : AuthorizationPayload) (sig payer : String),
      p.payload.nativePayment = none → p.payload.authorization = some auth →
      payerOf p.payload = some payer → jsStr p.payload.signature = some sig →
      env.now + 6 ≤ auth.validBefore →
      (lowerAscii auth.toAddr = lowerAscii req.payTo ∨
        lowerAscii auth.toAddr = lowerAscii env.facilitatorAddr) →
      (auth.value < minAmountOf req →
        verify env p req = ⟨false, some "Authorization amount insufficient", some payer⟩)
      ∧ (minAmountOf req ≤ auth.value →
        (verify env p req).invalidReason ≠ some "Authorization amount insufficient"))
    ∧ (∀ (env : VerifyEnv) (p : X402PaymentPayload) (req : PaymentRequirements)
        (pp : PermitPayload) (sig payer : String),
      p.payload.nativePayment = none → p.payload.authorization = none →
      p.payload.permit = some pp →
      payerOf p.payload = some payer → jsStr p.payload.signature = some sig →
      env.now + 6 ≤ pp.deadline →
      (lowerAscii pp.spender = lowerAscii req.payTo ∨
        lowerAscii pp.spender = lowerAscii env.facilitatorAddr) →
      (pp.value < minAmountOf req →
        verify env p req = ⟨false, some "Permit amount insufficient", some payer⟩)
      ∧ (minAmountOf req ≤ pp.value →
        (verify env p req).invalidReason ≠ some "Permit amount insufficient"))
    ∧ (∀ req : PaymentRequirements,
        req.srcAmountRequired = none → minAmountOf req = req.maxAmountRequired) := by
  refine ⟨?_, ?_, ?_⟩
  · intro env p req auth sig payer hnp hauth hpayer hsig hdl hrec
    rw [verify_eq_authBranch env p req auth sig payer hpayer hnp hsig hauth]
    unfold verifyAuthBranch
    rw [if_neg (by omega)]
    rw [if_neg (by rcases hrec with h | h <;> simp [h])]
    constructor
    · intro hval
      rw [if_pos hval]
    · intro hval
      rw [if_neg (by omega)]
      split
      · split
        · simp
        · simp
      · simp
  · intro env p req pp sig payer hnp hauth hpp hpayer hsig hdl hrec
    rw [verify_eq_permitBranch env p req pp sig payer hpayer hnp hsig hauth hpp]
    unfold verifyPermitBranch
    rw [if_neg (by omega)]
    rw [if_neg (by rcases hrec with h | h <;> simp [h])]
    constructor
    · intro hval
      rw [if_pos hval]
    · intro hval
      rw [if_neg (by omega)]
      split
      · split
        · simp
        · simp
      · simp
  · intro req h
    simp [minAmountOf, h]

/-- C7 witness: the amended theorem applied to the authorization `authW7`
whose value 3 is below the effective minimum 5 of `reqC7`. -/
theorem C7_witness :
    verify envC7 payloadW7 reqC7 =
      ⟨false, some "Authorization amount insufficient", some "0xpayer"⟩ :=
  (C7_amount_check_effective_min.1 envC7 payloadW7 reqC7 authW7 "0xsig" "0xpayer"
    rfl rfl rfl rfl (by decide) (Or.inl (by decide))).1 (by decide)

/-- C8: an authorization whose `validBefore` is strictly below `now + 6`
(resp. a permit whose `deadline` is) is rejected with a reason containing
"expired", for EVERY signature-recovery oracle, i.e. before any recovery is
attempted; an authorization with `validBefore ≥ now + 6` (resp. a permit with
`deadline ≥ now + 6`) never produces that reason. -/
theorem C8_deadline_check :
    (∀ (env : VerifyEnv) (p : X402PaymentPayload) (req : PaymentRequirements)
        (auth : AuthorizationPayload) (sig payer : String),
      p.payload.nativePayment = none → p.payload.authorization = some auth →
      payerOf p.payload = some payer → jsStr p.payload.signature = some sig →
      auth.validBefore < env.now + 6 →
      verify env p req =
        ⟨false, some "Authorization deadline expired or too soon", some payer⟩)
    ∧ ("Authorization deadline expired or too soon" =
        "Authorization deadline " ++ "expired" ++ " or too soon")
    ∧ (∀ (env : VerifyEnv) (p : X402PaymentPayload) (req : PaymentRequirements)
        (pp : PermitPayload) (sig payer : String),
      p.payload.nativePayment = none → p.payload.authorization = none →
      p.payload.permit = some pp →
      payerOf p.payload = some payer → jsStr p.payload.signature = some sig →
      pp.deadline < env.now + 6 →
      verify env p req = ⟨false, some "Permit deadline expired or too soon", some payer⟩)
    ∧ ("Permit deadline expired or too soon" =
        "Permit deadline " ++ "expired" ++ " or too soon")
    ∧ (∀ (env : VerifyEnv) (p : X402PaymentPayload) (req : PaymentRequirements)
        (auth : AuthorizationPayload) (sig payer : String),
      p.payload.nativePayment = none → p.payload.authorization = some auth →
      payerOf p.payload = some payer → jsStr p.payload.signature = some sig →
      env.now + 6 ≤ auth.validBefore →
      (verify env p req).invalidReason ≠ some "Authorization deadline expired or too soon")
    ∧ (∀ (env : VerifyEnv) (p : X402PaymentPayload) (req : PaymentRequirements)
        (pp : PermitPayload) (sig payer : String),
      p.payload.nativePayment = none → p.payload.authorization = none →
      p.payload.permit = some pp →
      payerOf p.payload = some payer → jsStr p.payload.signature = some sig →
      env.now + 6 ≤ pp.deadline →
      (verify env p req).invalidReason ≠ some "Permit deadline expired or too soon") := by
  refine ⟨?_, rfl, ?_, rfl, ?_, ?_⟩
  · intro env p req auth sig payer hnp hauth hpayer hsig hdl
    rw [verify_eq_authBranch env p req auth sig payer hpayer hnp hsig hauth]
    unfold verifyAuthBranch
    rw [if_pos hdl]
  · intro env p req pp sig payer hnp hauth hpp hpayer hsig hdl
    rw [verify_eq_permitBranch env p req pp sig payer hpayer hnp hsig hauth hpp]
    unfold verifyPermitBranch
    rw [if_pos hdl]
  · intro env p req auth sig payer hnp hauth hpayer hsig hdl
    rw [verify_eq_authBranch env p req auth sig payer hpayer hnp hsig hauth]
    unfold verifyAuthBranch
    rw [if_neg (by omega)]
    split
    · simp
    · split
      · simp
      · split
        · split
          · simp
          · simp
        · simp
  · intro env p req pp sig payer hnp hauth hpp hpayer hsig hdl
    rw [verify_eq_permitBranch env p req pp sig payer hpayer hnp hsig hauth hpp]
    unfold verifyPermitBranch
    rw [if_neg (by omega)]
    split
    · simp
    · split
      · simp
      · split
        · split
          · simp
          · simp
        · simp

/-- C8 witness: the expired authorization `authW8` (`validBefore = 999`,
clock at 1000) is rejected with the expired-deadline reason. -/
theorem C8_witness :
    verify envW8 payloadW8 reqW8 =
      ⟨false, some "Authorization deadline expired or too soon", some "0xpayer"⟩ :=
  C8_deadline_check.1 envW8 payloadW8 reqW8 authW8 "0xsig" "0xpayer" rfl rfl rfl rfl
    (by decide)

/-- C9: an authorization whose `to` (compared case-insensitively) matches
neither the requirement's `payTo` nor the facilitator's wallet address is
rejected with the recipient-mismatch reason, for EVERY signature-recovery
oracle (so regardless of signature validity); the analogous statement holds
for a permit's `spender`. -/
theorem C9_recipient_check :
    (∀ (env : VerifyEnv) (p : X402PaymentPayload) (req : PaymentRequirements)
        (auth : AuthorizationPayload) (sig payer : String),
      p.payload.nativePayment = none → p.payload.authorization = some auth →
      payerOf p.payload = some payer → jsStr p.payload.signature = some sig →
      env.now + 6 ≤ auth.validBefore →
      lowerAscii auth.toAddr ≠ lowerAscii req.payTo →
      lowerAscii auth.toAddr ≠ lowerAscii env.facilitatorAddr →
      verify env p req = ⟨false, some "Authorization recipient mismatch", some payer⟩)
    ∧ (∀ (env : VerifyEnv) (p : X402PaymentPayload) (req : PaymentRequirements)
        (pp : PermitPayload) (sig payer : String),
      p.payload.nativePayment = none → p.payload.authorization = none →
      p.payload.permit = some pp →
      payerOf p.payload = some payer → jsStr p.payload.signature = some sig →
      env.now + 6 ≤ pp.deadline →
      lowerAscii pp.spender ≠ lowerAscii req.payTo →
      lowerAscii pp.spender ≠ lowerAscii env.facilitatorAddr →
      verify env p req = ⟨false, some "Permit spender mismatch", some payer⟩) := by
  constructor
  · intro env p req auth sig payer hnp hauth hpayer hsig hdl h1 h2
    rw [verify_eq_authBranch env p req auth sig payer hpayer hnp hsig hauth]
    unfold verifyAuthBranch
    rw [if_neg (by omega), if_pos ⟨h1, h2⟩]
  · intro env p req pp sig payer hnp hauth hpp hpayer hsig hdl h1 h2
    rw [verify_eq_permitBranch env p req pp sig payer hpayer hnp hsig hauth hpp]
    unfold verifyPermitBranch
    rw [if_neg (by omega), if_pos ⟨h1, h2⟩]

/-- C9 witness: the authorization `authW9` addressed to `0xEvil` is rejected
with the recipient-mismatch reason even though the recovery oracle of `envW8`
returns an address. -/
theorem C9_witness :
    verify envW8 payloadW9 reqW8 =
      ⟨false, some "Authorization recipient mismatch", some "0xpayer"⟩ :=
  C9_recipient_check.1 envW8 payloadW9 reqW8 authW9 "0xsig" "0xpayer" rfl rfl rfl rfl
    (by decide) (by decide) (by decide)

/-- C10: payer extraction follows the precedence permit.owner, then
authorization.from, then nativePayment.from, while dispatch follows the
DIFFERENT precedence nativePayment, then authorization, then permit; in
particular a payload populating both a permit and a nativePayment is processed
as a native payment (by both verify and settle) while reporting the permit
owner as payer. -/
theorem C10_precedence :
    (∀ (b : PayloadBody) (pp : PermitPayload),
      b.permit = some pp → pp.owner ≠ "" → payerOf b = some pp.owner)
    ∧ (∀ (b : PayloadBody) (auth : AuthorizationPayload),
      b.permit = none → b.authorization = some auth → auth.fromAddr ≠ "" →
      payerOf b = some auth.fromAddr)
    ∧ (∀ (b : PayloadBody) (np : NativePayment),
      b.permit = none → b.authorization = none → b.nativePayment = some np →
      np.fromAddr ≠ "" → payerOf b = some np.fromAddr)
    ∧ (∀ (env : VerifyEnv) (p : X402PaymentPayload) (req : PaymentRequirements)
        (pp : PermitPayload) (np : NativePayment),
      p.payload.permit = some pp → pp.owner ≠ "" → p.payload.nativePayment = some np →
      verify env p req = verifyNative env np pp.owner)
    ∧ (∀ (env : SettleEnv) (p : X402PaymentPayload) (req : PaymentRequirements)
        (pp : PermitPayload) (np : NativePayment),
      p.payload.permit = some pp → pp.owner ≠ "" → p.payload.nativePayment = some np →
      settleV2 env p req = (⟨true, some np.txHash, some p.network, some pp.owner, none⟩, []))
    ∧ (∀ (env : VerifyEnv) (p : X402PaymentPayload) (req : PaymentRequirements)
        (pp : PermitPayload) (auth : AuthorizationPayload) (sig : String),
      p.payload.nativePayment = none → p.payload.permit = some pp → pp.owner ≠ "" →
      p.payload.authorization = some auth → jsStr p.payload.signature = some sig →
      verify env p req = verifyAuthBranch env req auth sig pp.owner) := by
  refine ⟨payerOf_permit, ?_, ?_, ?_, ?_, ?_⟩
  · intro b auth hpp hauth hfrom
    simp [payerOf, hpp, hauth, jsStr, hfrom]
  · intro b np hpp hauth hnp hfrom
    simp [payerOf, hpp, hauth, hnp, jsStr, hfrom]
  · intro env p req pp np hpp ho hnp
    exact verify_eq_native env p req np pp.owner (payerOf_permit p.payload pp hpp ho) hnp
  · intro env p req pp np hpp ho hnp
    exact settleV2_native env p req np pp.owner hnp (payerOf_permit p.payload pp hpp ho)
  · intro env p req pp auth sig hnp hpp ho hauth hsig
    exact verify_eq_authBranch env p req auth sig pp.owner
      (payerOf_permit p.payload pp hpp ho) hnp hsig hauth

/-- C10 witness: the payload `payloadW10` populating both a permit and a
native payment settles as a native payment while reporting the permit owner
`0xpayer` as payer. -/
theorem C10_witness :
    settleV2 envW5s payloadW10 reqC1 =
      (⟨true, some "0xnativetx", some "arbitrum", some "0xpayer", none⟩, []) :=
  C10_precedence.2.2.2.2.1 envW5s payloadW10 reqC1 permitC1 npW10 rfl (by decide) rfl

/-- C1 counterexample: the claim attributes the already-settled short-circuit
to the settle operation that owns the token-collection/quote/approval/bridge
pipeline (the x402 handler).  That handler consults no ledger at all: on the
concrete ledger `ledgerC1`, which reports the request's PaymentId settled, the
x402 settle run still executes the token-collection step (and, its collection
oracle failing, even returns `success:false` rather than `{success:true}`). -/
theorem C1_counterexample :
    ledgerC1 (paymentIdOf "0xabc" "0xpayer" "0xmerchant") = true
    ∧ (settleV2 envC1 payloadC1 reqC1).1.success = false
    ∧ (settleV2 envC1 payloadC1 reqC1).1.errorReason =
        some "Failed to take tokens: ERC20: insufficient allowance"
    ∧ (settleV2 envC1 payloadC1 reqC1).2 = [Step.collectTokens] := by
  exact ⟨by decide, by decide, by decide, by decide⟩

/-- C1 (amended): the already-settled short-circuit lives in the LEDGER-BASED
settle handler: there, a request whose PaymentId the ledger reports settled
returns `{success:true}` immediately with no bridge poll, no registration and
no settlement transaction, and a repeat of any successful settle call is a
pure success with no external action at all — so the pipeline runs at most
once.  The x402 permit/authorization handler (the one with the
token-collection pipeline) performs no such check (see the counterexample). -/
theorem C1_settle_idempotent_ledgerHandler (ledger : String → Bool)
    (env1 env2 : V1Env) (d : V1Data) (req : PaymentRequirements) (txHash payer : String)
    (htx : jsStr d.transactionHash = some txHash)
    (hp : jsStr d.fromAddr = some payer) :
    (ledger (paymentIdOf txHash payer req.payTo) = true →
      settleV1 ledger env1 d req = (⟨true, none, none⟩, ledger, []))
    ∧ ((settleV1 ledger env1 d req).1.success = true →
      settleV1 (settleV1 ledger env1 d req).2.1 env2 d req =
        (⟨true, none, none⟩, (settleV1 ledger env1 d req).2.1, [])) := by
  constructor
  · intro hset
    exact settleV1_shortcircuit ledger env1 d req txHash payer htx hp hset
  · intro hsuccess
    exact settleV1_shortcircuit (settleV1 ledger env1 d req).2.1 env2 d req txHash payer
      htx hp (settleV1_success_marks ledger env1 d req txHash payer htx hp hsuccess)

/-- C1 witness: on the concrete already-settled ledger `ledgerC1`, the
ledger-based settle returns success immediately with no steps. -/
theorem C1_witness :
    settleV1 ledgerC1 envW2 dW2 reqW2 = (⟨true, none, none⟩, ledgerC1, []) :=
  (C1_settle_idempotent_ledgerHandler ledgerC1 envW2 envW2 dW2 reqW2 "0xabc" "0xpayer"
    rfl rfl).1 (by decide)

/-- C2 counterexample: the claim says a successful permit/authorization
settlement registers the requirement on the ledger, marks it settled, and
returns the transaction hash.  A fully successful cross-chain permit run of
the x402 settle handler returns the bridge transaction hash but performs NO
ledger registration and NO ledger settle transaction. -/
theorem C2_counterexample :
    (settleV2 envC2 payloadC2 reqC2).1.success = true
    ∧ (settleV2 envC2 payloadC2 reqC2).1.transaction = some "0xbridgetx"
    ∧ Step.registerReq ∉ (settleV2 envC2 payloadC2 reqC2).2
    ∧ Step.settleTx ∉ (settleV2 envC2 payloadC2 reqC2).2 := by
  exact ⟨by decide, by decide, by decide, by decide⟩

/-- C2 (amended): the two effects are split across the two settle handlers.
The LEDGER-BASED handler, on a successful run (not already settled, bridge
completed when cross-chain, ledger settle transaction succeeding), executes
the registration — swallowing ANY registration error, since `registerRes` is
unconstrained here — and the ledger settle transaction, marks the PaymentId
settled, and returns `{success:true}` WITHOUT a transaction hash; the x402
permit/authorization handler is the one that returns the bridge transaction
hash on a completed bridge (but touches no ledger, per `settleV2_no_ledger`
and the counterexample). -/
theorem C2_success_ledger_effects (ledger : String → Bool) (env : V1Env) (d : V1Data)
    (req : PaymentRequirements) (txHash payer : String)
    (htx : jsStr d.transactionHash = some txHash)
    (hp : jsStr d.fromAddr = some payer)
    (hnot : ledger (paymentIdOf txHash payer req.payTo) = false)
    (hok : env.settleRes = Except.ok ())
    (hbridge : (pollFrom env.statusAt 10 0 (env.statusAt 0)).1 = SwapStatus.COMPLETED) :
    ((settleV1 ledger env d req).1 = ⟨true, none, none⟩
      ∧ Step.registerReq ∈ (settleV1 ledger env d req).2.2
      ∧ Step.settleTx ∈ (settleV1 ledger env d req).2.2
      ∧ (settleV1 ledger env d req).2.1 (paymentIdOf txHash payer req.payTo) = true
      ∧ (settleV1 ledger env d req).1.transaction = none)
    ∧ (∀ (env2 : SettleEnv) (networkTag payer2 txh : String) (tr : List Step),
        env2.submitRes = Except.ok txh →
        (pollFrom env2.statusAt 60 0 (env2.statusAt 0)).1 = SwapStatus.COMPLETED →
        (bridgeSubmitAndPoll env2 networkTag payer2 tr).1.success = true ∧
          (bridgeSubmitAndPoll env2 networkTag payer2 tr).1.transaction = some txh) := by
  constructor
  · unfold settleV1
    rw [htx, hp]
    simp only []
    rw [if_neg (by simp [hnot])]
    by_cases hcc : (jsStr req.srcNetwork).isSome ∨ (jsStr req.srcTokenAddress).isSome
    · rw [if_pos hcc, if_neg (by simp [hbridge])]
      unfold v1Finish
      rw [hok]
      simp
    · rw [if_neg hcc]
      unfold v1Finish
      rw [hok]
      simp
  · intro env2 networkTag payer2 txh tr hsub hpoll
    unfold bridgeSubmitAndPoll
    rw [hsub]
    simp only []
    rw [hpoll]
    rw [if_neg (by decide)]
    exact ⟨rfl, rfl⟩

/-- C2 witness: a concrete successful ledger-based settle run whose
registration oracle FAILS (`envW2.registerRes` is an error, and is swallowed):
the run still succeeds, still executes both ledger steps, marks the PaymentId
settled, and returns no transaction hash. -/
theorem C2_witness :
    (settleV1 ledgerEmpty envW2 dW2 reqW2).1 = ⟨true, none, none⟩
    ∧ (settleV1 ledgerEmpty envW2 dW2 reqW2).1.transaction = none
    ∧ Step.registerReq ∈ (settleV1 ledgerEmpty envW2 dW2 reqW2).2.2
    ∧ Step.settleTx ∈ (settleV1 ledgerEmpty envW2 dW2 reqW2).2.2
    ∧ (settleV1 ledgerEmpty envW2 dW2 reqW2).2.1
        (paymentIdOf "0xabc" "0xpayer" "0xmerchant") = true := by
  have h := (C2_success_ledger_effects ledgerEmpty envW2 dW2 reqW2 "0xabc" "0xpayer"
    rfl rfl (by decide) rfl (by rfl)).1
  exact ⟨h.1, h.2.2.2.2, h.2.1, h.2.2.1, h.2.2.2.1⟩
